import Mathlib

/-!
Verification of the transcription server in `src/index.js` (the second,
structured-output variant of the file, which is the one the specification
describes: it returns the three-field JSON object and strips markdown fences).

The embedding is shallow: the stateful Express handler becomes a pure
function from the request, the simulated behaviour of the three external
collaborators (yt-dlp subprocess, ffmpeg transcoder, Gemini inference) and an
explicit filesystem state, to a handler outcome recording the HTTP response,
the final filesystem, any exception escaping the `finally` cleanup block, and
which stages ran.  JavaScript string primitives used by the code
(`split`, `includes`, `startsWith`, `substring`, `trim`) are modelled over
`List Char`; `JSON.parse` is modelled on the subset of inputs the claims
exercise (minified flat objects with string values and no escape sequences),
with every other input treated as a parse failure.
-/

/-! ## JavaScript string primitives -/

/-- Index of the first occurrence of `pat` as a contiguous sublist of `l`
(`none` if absent).  `pat = []` matches at index 0, as in JS `includes('')`. -/
def idxOfSublist (pat : List Char) : List Char → Option Nat
  | [] => if pat = [] then some 0 else none
  | c :: rest =>
    if pat.isPrefixOf (c :: rest) then some 0
    else (idxOfSublist pat rest).map (· + 1)

/-- Models JS `s.includes(sub)`. -/
def jsIncludes (s sub : String) : Bool :=
  (idxOfSublist sub.toList s.toList).isSome

/-- Fuel-driven splitter over `List Char`; with fuel larger than the list
length it computes JS `split` for a non-empty separator. -/
def splitCharsFuel (sep : List Char) : Nat → List Char → List (List Char)
  | 0, l => [l]
  | fuel + 1, l =>
    match idxOfSublist sep l with
    | none => [l]
    | some i => l.take i :: splitCharsFuel sep fuel (l.drop (i + sep.length))

/-- Models JS `s.split(sep)` for a non-empty separator `sep`. -/
def jsSplit (s sep : String) : List String :=
  (splitCharsFuel sep.toList (s.toList.length + 1) s.toList).map
    (fun cs => String.mk cs)

/-- Models JS `s.startsWith(p)`. -/
def jsStartsWith (s p : String) : Bool :=
  p.toList.isPrefixOf s.toList

/-- JS `trim` whitespace (the characters occurring in the claims). -/
def isJsWhitespace (c : Char) : Bool :=
  c = ' ' || c = '\n' || c = '\t' || c = '\r'

/-- Models JS `s.trim()`. -/
def jsTrim (s : String) : String :=
  String.mk (((s.toList.dropWhile isJsWhitespace).reverse.dropWhile
    isJsWhitespace).reverse)

/-- Models JS `s.substring(start, finish)`: both indices are clamped to the
string length and swapped when `start > finish`. -/
def jsSubstring (s : String) (start finish : Nat) : String :=
  let l := s.toList
  let a := min start l.length
  let b := min finish l.length
  String.mk ((l.drop (min a b)).take (max a b - min a b))

/-! ## JSON.parse on minified flat string objects -/

/-- Parses a JSON string body after its opening quote: the characters up to
the next `"`.  Escape sequences are not modelled (the claims use none); a
backslash makes the parse fail. -/
def parseJStringAux : List Char → List Char → Option (String × List Char)
  | [], _ => none
  | c :: rest, acc =>
    if c = '"' then some (String.mk acc.reverse, rest)
    else if c = '\\' then none
    else parseJStringAux rest (c :: acc)

/-- Parses a quoted JSON string, returning it and the remaining input. -/
def parseJString : List Char → Option (String × List Char)
  | '"' :: rest => parseJStringAux rest []
  | _ => none

/-- Parses the members of a minified flat object after the opening brace,
consuming the closing brace. -/
def parseMembers : Nat → List Char → Option (List (String × String) × List Char)
  | 0, _ => none
  | fuel + 1, l =>
    match parseJString l with
    | none => none
    | some (k, rest) =>
      match rest with
      | ':' :: rest2 =>
        match parseJString rest2 with
        | none => none
        | some (v, rest3) =>
          match rest3 with
          | ',' :: rest4 =>
            (parseMembers fuel rest4).map (fun p => ((k, v) :: p.1, p.2))
          | '\x7d' :: rest5 => some ([(k, v)], rest5)
          | _ => none
      | _ => none

/-- Models the JS built-in `JSON.parse` on the subset of minified flat
objects with string keys and string values and no escape sequences (the only
JSON shapes the model replies in the claims contain); every other input is a
parse failure (`none`). -/
def jsonParseFlat (s : String) : Option (List (String × String)) :=
  match s.toList with
  | '\x7b' :: rest =>
    match rest with
    | ['\x7d'] => some []
    | _ =>
      match parseMembers (s.toList.length + 1) rest with
      | none => none
      | some (ms, r) => if r = [] then some ms else none
  | _ => none

/-! ## TranscriptionClient: `transcribeAndTranslateWithGemini` -/

/-- Error message thrown by the outer catch of
`transcribeAndTranslateWithGemini` (src/index.js line 326). -/
def geminiGenericErrorMsg : String :=
  "Failed to transcribe or translate audio with Gemini."

/-- Error message thrown on a JSON parse failure (src/index.js line 321),
before the outer catch replaces it. -/
def invalidFormatMsg : String :=
  "Received an invalid response format from the AI model."

/-- The fence-stripping step of `transcribeAndTranslateWithGemini`
(src/index.js lines 312-314): only a reply beginning with the literal
marker is stripped, losing its first 7 and last 3 characters and trimming. -/
def cleanGeminiResponse (text : String) : String :=
  if jsStartsWith text "```json" then
    jsTrim (jsSubstring text 7 (text.toList.length - 3))
  else text

deriving instance DecidableEq for Except

/-- Result of the Gemini client: the value returned or the error thrown,
together with the `console.error` log entries it wrote. -/
structure GeminiOut where
  result : Except String (List (String × String))
  logs : List String
deriving Repr, DecidableEq

/-- Models `transcribeAndTranslateWithGemini` (src/index.js lines 291-328).
The input is the outcome of the `generateContent` call: a transport or
inference error, or the raw model reply text.  A parse failure logs the
unparseable text and throws `invalidFormatMsg`, which the outer catch logs
and replaces with `geminiGenericErrorMsg`; a transport error is logged and
replaced the same way. -/
def transcribeAndTranslateWithGemini (modelReply : Except String String) :
    GeminiOut :=
  match modelReply with
  | .error cause =>
    ⟨.error geminiGenericErrorMsg,
     ["Error during Gemini processing: " ++ cause]⟩
  | .ok text =>
    match jsonParseFlat (cleanGeminiResponse text) with
    | some pairs => ⟨.ok pairs, []⟩
    | none =>
      ⟨.error geminiGenericErrorMsg,
       ["Failed to parse JSON response from Gemini: " ++
          cleanGeminiResponse text,
        "Error during Gemini processing: " ++ invalidFormatMsg]⟩

/-! ## Filesystem model -/

/-- Filesystem state: the set of existing paths (`files`), plus the paths on
which `fs.unlinkSync` raises (e.g. a permission error) instead of deleting
(`unlinkFails`) — the environment's failure model for cleanup. -/
structure FS where
  files : List String
  unlinkFails : List String
deriving Repr, DecidableEq

/-- Models `fs.existsSync(p)`. -/
def existsSync (fs : FS) (p : String) : Bool :=
  fs.files.contains p

/-- A file appears on disk (a collaborator wrote it). -/
def fsAdd (fs : FS) (p : String) : FS :=
  ⟨fs.files ++ [p], fs.unlinkFails⟩

/-- Several files appear on disk. -/
def fsAddMany (fs : FS) (ps : List String) : FS :=
  ⟨fs.files ++ ps, fs.unlinkFails⟩

/-- Models `fs.unlinkSync(p)`: removes the path, or throws when the
environment makes the unlink fail. -/
def unlinkSync (fs : FS) (p : String) : Except String FS :=
  if fs.unlinkFails.contains p then
    .error ("EPERM: operation not permitted, unlink " ++ p)
  else
    .ok ⟨fs.files.filter (fun q => q != p), fs.unlinkFails⟩

/-! ## SubprocessDownloader: the yt-dlp event stream -/

/-- One `ytDlpEvent` emission: its type string and data string. -/
structure YtEvent where
  eventType : String
  eventData : String
deriving Repr, DecidableEq

/-- How the yt-dlp subprocess ends: a `close` event, or a process-level
`error` event carrying the subprocess error. -/
inductive DlOutcome where
  | close
  | procError (msg : String)
deriving Repr, DecidableEq

/-- Simulated run of the download tool: the `ytDlpEvent` stream, how the
process ends, and the files it wrote to disk. -/
structure DownloadSim where
  events : List YtEvent
  outcome : DlOutcome
  createdFiles : List String
deriving Repr, DecidableEq

/-- The guard of the `ytDlpEvent` listener (src/index.js line 217): the
event is a download event whose data announces a destination. -/
def isDestEvent (e : YtEvent) : Bool :=
  e.eventType == "download" && jsIncludes e.eventData "Destination:"

/-- The path a destination event announces
(src/index.js line 218: `eventData.split('Destination: ')[1].trim()`);
`none` for a non-destination event. -/
def announcedDest (e : YtEvent) : Option String :=
  if isDestEvent e then
    ((jsSplit e.eventData "Destination: ")[1]?).map jsTrim
  else none

/-- One step of the listener updating the captured `downloadedFile`
variable.  `none` models the listener throwing: the guard held but the
split produced no index 1 (JS `undefined.trim()`), so the promise never
settles. -/
def destStep (acc : String) (e : YtEvent) : Option String :=
  if isDestEvent e then
    ((jsSplit e.eventData "Destination: ")[1]?).map jsTrim
  else some acc

/-- Folds the listener over an event stream starting from a captured value. -/
def foldDestFrom (acc : String) : List YtEvent → Option String
  | [] => some acc
  | e :: rest =>
    match destStep acc e with
    | none => none
    | some acc2 => foldDestFrom acc2 rest

/-- The final value of the `downloadedFile` variable after the whole event
stream (it starts as the empty string, src/index.js line 205). -/
def foldDest (events : List YtEvent) : Option String :=
  foldDestFrom "" events

/-! ## TranscriptionPipeline: the request handler -/

/-- Simulated run of the ffmpeg transcoder: whether it reports `end` or
`error`, and whether a failing run still left a partial output file. -/
structure TranscodeSim where
  result : Except String Unit
  leavesOutputOnError : Bool
deriving Repr, DecidableEq

/-- An HTTP response: status code and JSON body as ordered key/value pairs
(all values in this API are strings). -/
structure HttpResponse where
  status : Nat
  body : List (String × String)
deriving Repr, DecidableEq

/-- The temporary directory (`path.join(__dirname, 'temp')`), relative to
the server directory. -/
def tempDir : String := "temp"

/-- Models `const uniqueId = Date.now()` (src/index.js line 203): the jobId
is exactly the handler's millisecond timestamp reading. -/
def jobIdOfRequest (nowMs : Nat) : Nat := nowMs

/-- Models `path.join(tempDir, uniqueId + '.wav')` (src/index.js line 204). -/
def audioFilePath (uid : Nat) : String :=
  tempDir ++ "/" ++ Nat.repr uid ++ ".wav"

/-- Body message for a missing `url` (src/index.js line 200). -/
def urlRequiredMsg : String := "Instagram Reel URL is required."

/-- User-facing message for `DownloadFailed` (src/index.js lines 271-273). -/
def downloadFailedUserMsg : String :=
  "Content could not be downloaded. The URL may be invalid, private, or the content is unavailable."

/-- Generic 500 message (src/index.js line 276). -/
def internalErrorMsg : String := "An internal server error occurred."

/-- Outcome of the try block: the response produced or error thrown, the
filesystem when the block exits, and which stages ran. -/
structure TryOut where
  result : Except String HttpResponse
  fs : FS
  ranTranscode : Bool
  ranInference : Bool
deriving Repr, DecidableEq

/-- Models the try block of the `/transcribe` handler (src/index.js lines
207-266): await the download promise, check the captured path exists, run
the transcoder, run the Gemini client, build the 200 response. -/
def runTryBody (url df afp : String) (fs1 : FS) (outc : DlOutcome)
    (tc : TranscodeSim) (modelReply : Except String String) : TryOut :=
  match outc with
  | .procError msg => ⟨.error msg, fs1, false, false⟩
  | .close =>
    if df = "" then ⟨.error "DownloadFailed", fs1, false, false⟩
    else if !existsSync fs1 df then ⟨.error "DownloadFailed", fs1, false, false⟩
    else
      match tc.result with
      | .error msg =>
        ⟨.error msg, if tc.leavesOutputOnError then fsAdd fs1 afp else fs1,
         true, false⟩
      | .ok _ =>
        let fs2 := fsAdd fs1 afp
        match (transcribeAndTranslateWithGemini modelReply).result with
        | .error msg => ⟨.error msg, fs2, true, true⟩
        | .ok pairs =>
          ⟨.ok ⟨200, ("sourceUrl", url) :: pairs⟩, fs2, true, true⟩

/-- Models the catch block (src/index.js lines 268-276): the thrown message
`DownloadFailed` gets the specific 400; everything else gets the generic
500 with the message in `details`. -/
def mapCatch (msg : String) : HttpResponse :=
  if msg = "DownloadFailed" then ⟨400, [("error", downloadFailedUserMsg)]⟩
  else ⟨500, [("error", internalErrorMsg), ("details", msg)]⟩

/-- The response sent: the try block's own response, or the catch block's. -/
def respOf : Except String HttpResponse → HttpResponse
  | .ok r => r
  | .error msg => mapCatch msg

/-- Result of the finally block: the filesystem afterwards and the
exception escaping it, if any. -/
structure CleanOut where
  fs : FS
  err : Option String
deriving Repr, DecidableEq

/-- The second cleanup statement (src/index.js line 280): delete
`audioFilePath` if it exists. -/
def cleanupSecond (afp : String) (fs : FS) : CleanOut :=
  if existsSync fs afp then
    match unlinkSync fs afp with
    | .ok fs2 => ⟨fs2, none⟩
    | .error e => ⟨fs, some e⟩
  else ⟨fs, none⟩

/-- Models the finally block (src/index.js lines 277-282): delete
`downloadedFile` if set and existing, then `audioFilePath` if existing.  An
exception from the first statement skips the second, and no exception is
caught: it escapes the handler. -/
def cleanup (df afp : String) (fs : FS) : CleanOut :=
  if (df != "") && existsSync fs df then
    match unlinkSync fs df with
    | .ok fs1 => cleanupSecond afp fs1
    | .error e => ⟨fs, some e⟩
  else cleanupSecond afp fs

/-- Observable outcome of one `/transcribe` request: the response together
with the final filesystem, the exception escaping the finally block (if
any; the response was already sent when it is raised), the stages that ran
and the final `downloadedFile` value — or `listenerCrash` when the
`ytDlpEvent` listener threw, leaving the download promise forever
unsettled. -/
inductive HandlerOutcome where
  | responded (status : Nat) (body : List (String × String)) (fsFinal : FS)
      (cleanupErr : Option String) (ranTranscode ranInference : Bool)
      (downloadedFile : String)
  | listenerCrash
deriving Repr, DecidableEq

/-- Models `app.post('/transcribe')` (src/index.js lines 196-283) for one
request, with the three collaborators simulated: the body's `url`, the
`Date.now()`-derived jobId, the initial filesystem, and the behaviours of
the download subprocess, the transcoder and the Gemini call. -/
def handleTranscribe (urlField : Option String) (uid : Nat) (fs0 : FS)
    (dl : DownloadSim) (tc : TranscodeSim)
    (modelReply : Except String String) : HandlerOutcome :=
  match urlField with
  | none => .responded 400 [("error", urlRequiredMsg)] fs0 none false false ""
  | some url =>
    match foldDest dl.events with
    | none => .listenerCrash
    | some df =>
      let t := runTryBody url df (audioFilePath uid)
        (fsAddMany fs0 dl.createdFiles) dl.outcome tc modelReply
      let resp := respOf t.result
      let c := cleanup df (audioFilePath uid) t.fs
      .responded resp.status resp.body c.fs c.err t.ranTranscode
        t.ranInference df

/-- HTTP status of a completed request. -/
def outStatus : HandlerOutcome → Option Nat
  | .responded s _ _ _ _ _ _ => some s
  | .listenerCrash => none

/-- Response body of a completed request. -/
def outBody : HandlerOutcome → Option (List (String × String))
  | .responded _ b _ _ _ _ _ => some b
  | .listenerCrash => none

/-- Final filesystem of a completed request. -/
def outFs : HandlerOutcome → Option FS
  | .responded _ _ fs _ _ _ _ => some fs
  | .listenerCrash => none

/-- Exception escaping the finally block, if the request completed. -/
def outCleanupErr : HandlerOutcome → Option (Option String)
  | .responded _ _ _ ce _ _ _ => some ce
  | .listenerCrash => none

/-- Whether the transcode stage ran. -/
def outRanTranscode : HandlerOutcome → Option Bool
  | .responded _ _ _ _ rt _ _ => some rt
  | .listenerCrash => none

/-- Whether the inference stage ran. -/
def outRanInference : HandlerOutcome → Option Bool
  | .responded _ _ _ _ _ ri _ => some ri
  | .listenerCrash => none

/-- Final value of the `downloadedFile` variable. -/
def outDownloadedFile : HandlerOutcome → Option String
  | .responded _ _ _ _ _ _ df => some df
  | .listenerCrash => none

/-! ## Decimal representation (for reasoning about `Nat.repr` in paths) -/

/-- Numeric value of a decimal digit character. -/
def decDigitVal (c : Char) : Nat := c.toNat - 48

/-- Value of a most-significant-first decimal digit string. -/
def reprVal (l : List Char) : Nat :=
  l.foldl (fun acc c => acc * 10 + decDigitVal c) 0

/-- Clean recursive decimal digit list of a natural number, most significant
digit first; shown below to agree with `Nat.repr`. -/
def decRepr (n : Nat) : List Char :=
  if h : n / 10 = 0 then [Nat.digitChar (n % 10)]
  else decRepr (n / 10) ++ [Nat.digitChar (n % 10)]
termination_by n
decreasing_by omega

/-! ## Helper lemmas -/

lemma contains_false_iff (l : List String) (p : String) :
    l.contains p = false ↔ p ∉ l := by
  rw [← Bool.not_eq_true, not_iff_not]
  exact List.elem_iff

lemma contains_filter_ne_self (l : List String) (p : String) :
    (l.filter (fun q => q != p)).contains p = false := by
  rw [contains_false_iff]
  intro hm
  have := List.of_mem_filter hm
  simp at this

lemma contains_filter_false (l : List String) (f : String → Bool) (r : String)
    (h : l.contains r = false) : (l.filter f).contains r = false := by
  rw [contains_false_iff] at h ⊢
  exact fun hm => h (List.mem_of_mem_filter hm)

lemma unlinkSync_ok (fs : FS) (p : String) (h : fs.unlinkFails = []) :
    unlinkSync fs p = .ok ⟨fs.files.filter (fun q => q != p), fs.unlinkFails⟩ := by
  unfold unlinkSync
  rw [h]
  rfl

lemma cleanupSecond_spec (afp : String) (fs : FS) (h : fs.unlinkFails = []) :
    (cleanupSecond afp fs).err = none ∧
    (cleanupSecond afp fs).fs.unlinkFails = [] ∧
    existsSync (cleanupSecond afp fs).fs afp = false ∧
    ∀ r, existsSync fs r = false → existsSync (cleanupSecond afp fs).fs r = false := by
  unfold cleanupSecond
  by_cases he : existsSync fs afp
  · rw [if_pos he, unlinkSync_ok fs afp h]
    refine ⟨rfl, h, ?_, ?_⟩
    · exact contains_filter_ne_self _ _
    · intro r hr
      exact contains_filter_false _ _ _ hr
  · rw [if_neg he]
    exact ⟨rfl, h, by simpa using he, fun r hr => hr⟩

lemma cleanup_spec (df afp : String) (fs : FS) (h : fs.unlinkFails = []) :
    (cleanup df afp fs).err = none ∧
    existsSync (cleanup df afp fs).fs afp = false ∧
    (df = "" ∨ existsSync (cleanup df afp fs).fs df = false) := by
  unfold cleanup
  by_cases hc : ((df != "") && existsSync fs df) = true
  · rw [if_pos hc, unlinkSync_ok fs df h]
    have h2 := cleanupSecond_spec afp ⟨fs.files.filter (fun q => q != df), fs.unlinkFails⟩ h
    refine ⟨h2.1, h2.2.2.1, Or.inr ?_⟩
    exact h2.2.2.2 df (contains_filter_ne_self _ _)
  · rw [if_neg hc]
    have h2 := cleanupSecond_spec afp fs h
    refine ⟨h2.1, h2.2.2.1, ?_⟩
    by_cases hdf : df = ""
    · exact Or.inl hdf
    · right
      have hex : existsSync fs df = false := by
        by_contra hx
        rw [Bool.not_eq_false] at hx
        exact hc (by simp [hdf, hx])
      exact h2.2.2.2 df hex

lemma runTryBody_unlinkFails (url df afp : String) (fs1 : FS) (outc : DlOutcome)
    (tc : TranscodeSim) (mr : Except String String) :
    (runTryBody url df afp fs1 outc tc mr).fs.unlinkFails = fs1.unlinkFails := by
  unfold runTryBody
  cases outc with
  | procError msg => rfl
  | close =>
    repeat' split
    all_goals simp [fsAdd]

lemma runTryBody_indep (url df afp : String) (files L L' : List String)
    (outc : DlOutcome) (tc : TranscodeSim) (mr : Except String String) :
    (runTryBody url df afp ⟨files, L⟩ outc tc mr).result =
      (runTryBody url df afp ⟨files, L'⟩ outc tc mr).result ∧
    (runTryBody url df afp ⟨files, L⟩ outc tc mr).ranTranscode =
      (runTryBody url df afp ⟨files, L'⟩ outc tc mr).ranTranscode ∧
    (runTryBody url df afp ⟨files, L⟩ outc tc mr).ranInference =
      (runTryBody url df afp ⟨files, L'⟩ outc tc mr).ranInference := by
  unfold runTryBody
  cases outc with
  | procError msg => exact ⟨rfl, rfl, rfl⟩
  | close =>
    simp only [existsSync]
    repeat' split
    all_goals simp_all

lemma foldDestFrom_append (acc : String) (l1 l2 : List YtEvent) :
    foldDestFrom acc (l1 ++ l2) =
      match foldDestFrom acc l1 with
      | none => none
      | some w => foldDestFrom w l2 := by
  induction l1 generalizing acc with
  | nil => rfl
  | cons e rest ih =>
    simp only [List.cons_append, foldDestFrom]
    cases destStep acc e with
    | none => rfl
    | some acc2 => exact ih acc2

lemma foldDestFrom_nonDest (acc : String) (ys : List YtEvent)
    (h : ∀ y ∈ ys, isDestEvent y = false) :
    foldDestFrom acc ys = some acc := by
  induction ys with
  | nil => rfl
  | cons y rest ih =>
    have hy := h y (List.mem_cons_self y rest)
    simp only [foldDestFrom, destStep, hy, Bool.false_eq_true, if_false]
    exact ih fun z hz => h z (List.mem_cons_of_mem y hz)

lemma destStep_of_announced (acc v : String) (e : YtEvent)
    (he : announcedDest e = some v) : destStep acc e = some v := by
  unfold announcedDest at he
  unfold destStep
  by_cases hd : isDestEvent e
  · rw [if_pos hd] at he ⊢; exact he
  · rw [if_neg hd] at he; exact absurd he (by simp)

lemma digitChar_val (d : Nat) (h : d < 10) :
    decDigitVal (Nat.digitChar d) = d := by
  interval_cases d <;> decide

lemma reprVal_append_one (l : List Char) (c : Char) :
    reprVal (l ++ [c]) = reprVal l * 10 + decDigitVal c := by
  simp [reprVal, List.foldl_append]

lemma reprVal_decRepr (n : Nat) : reprVal (decRepr n) = n := by
  induction n using Nat.strong_induction_on with
  | _ n ih =>
    rw [decRepr]
    by_cases h : n / 10 = 0
    · rw [dif_pos h]
      have h2 := digitChar_val (n % 10) (Nat.mod_lt n (by omega))
      simp [reprVal, h2]
      omega
    · rw [dif_neg h]
      rw [reprVal_append_one, ih (n / 10) (by omega),
        digitChar_val (n % 10) (Nat.mod_lt n (by omega))]
      omega

lemma toDigitsCore_eq_decRepr (fuel : Nat) :
    ∀ (n : Nat) (ds : List Char), n < fuel →
      Nat.toDigitsCore 10 fuel n ds = decRepr n ++ ds := by
  induction fuel with
  | zero => intro n ds h; omega
  | succ f ih =>
    intro n ds h
    rw [Nat.toDigitsCore]
    by_cases h0 : n / 10 = 0
    · simp only [h0, if_true]
      rw [decRepr, dif_pos h0]
      rfl
    · simp only [h0, if_false]
      rw [ih (n / 10) (Nat.digitChar (n % 10) :: ds) (by omega)]
      conv_rhs => rw [decRepr]
      rw [dif_neg h0]
      simp

lemma natRepr_eq_decRepr (n : Nat) : Nat.repr n = String.mk (decRepr n) := by
  unfold Nat.repr Nat.toDigits
  rw [toDigitsCore_eq_decRepr (n + 1) n [] (by omega)]
  simp [List.asString]

lemma natRepr_injective (m n : Nat) (h : Nat.repr m = Nat.repr n) : m = n := by
  rw [natRepr_eq_decRepr, natRepr_eq_decRepr] at h
  have hd : decRepr m = decRepr n := congrArg String.data h
  calc m = reprVal (decRepr m) := (reprVal_decRepr m).symm
    _ = reprVal (decRepr n) := by rw [hd]
    _ = n := reprVal_decRepr n

lemma audioFilePath_data (uid : Nat) : (audioFilePath uid).data =
    't' :: 'e' :: 'm' :: 'p' :: '/' :: ((Nat.repr uid).data ++ ['.', 'w', 'a', 'v']) := by
  unfold audioFilePath tempDir
  cases hr : Nat.repr uid with
  | mk d => rfl

lemma audioFilePath_injective (t1 t2 : Nat)
    (h : audioFilePath t1 = audioFilePath t2) : t1 = t2 := by
  have hd := congrArg String.data h
  rw [audioFilePath_data, audioFilePath_data] at hd
  simp only [List.cons.injEq, true_and] at hd
  have : (Nat.repr t1).data = (Nat.repr t2).data := List.append_cancel_right hd
  exact natRepr_injective t1 t2 (by
    cases he1 : Nat.repr t1 with
    | mk d1 =>
      cases he2 : Nat.repr t2 with
      | mk d2 =>
        rw [he1, he2] at this
        simp only at this
        rw [this])

/-! ## Claims -/

/-- Claim C1: for every request that reaches the pipeline and for every
pipeline outcome, once the handler has returned (and deletions themselves
succeed, `unlinkFails = []`), neither the raw downloaded media file (the
final `downloadedFile` path, when one was captured) nor the normalized
waveform file at `audioFilePath uid` exists on the filesystem. -/
theorem c1_temp_files_absent_after_return (u : String) (uid : Nat) (fs0 : FS)
    (dl : DownloadSim) (tc : TranscodeSim) (mr : Except String String)
    (hok : fs0.unlinkFails = [])
    (s : Nat) (b : List (String × String)) (fsF : FS) (ce : Option String)
    (rt ri : Bool) (df : String)
    (h : handleTranscribe (some u) uid fs0 dl tc mr =
      .responded s b fsF ce rt ri df) :
    existsSync fsF (audioFilePath uid) = false ∧
    (df = "" ∨ existsSync fsF df = false) := by
  unfold handleTranscribe at h
  cases hf : foldDest dl.events with
  | none => rw [hf] at h; exact absurd h (by simp)
  | some df0 =>
    rw [hf] at h
    simp only [HandlerOutcome.responded.injEq] at h
    obtain ⟨-, -, hfs, -, -, -, hdf⟩ := h
    subst hfs hdf
    have hu : (runTryBody u df0 (audioFilePath uid)
        (fsAddMany fs0 dl.createdFiles) dl.outcome tc mr).fs.unlinkFails = [] := by
      rw [runTryBody_unlinkFails]
      simpa [fsAddMany] using hok
    have := cleanup_spec df0 (audioFilePath uid) _ hu
    exact ⟨this.2.1, this.2.2⟩

/-- Witness for C1: a fully successful concrete run (download announces
`temp/7.m4a`, transcode succeeds, Gemini returns the three fields) ends
with both temporary files absent. -/
theorem c1_witness :
    existsSync ⟨[], []⟩ (audioFilePath 7) = false ∧
    ("temp/7.m4a" = "" ∨ existsSync (⟨[], []⟩ : FS) "temp/7.m4a" = false) :=
  c1_temp_files_absent_after_return "https://insta/reel" 7 ⟨[], []⟩
    ⟨[⟨"download", "[download] Destination: temp/7.m4a"⟩], .close, ["temp/7.m4a"]⟩
    ⟨.ok (), false⟩
    (.ok "```json\n\x7b\"language_detected\":\"es\",\"original_transcript\":\"hola\",\"english_translation\":\"hello\"\x7d\n```")
    rfl 200
    [("sourceUrl", "https://insta/reel"), ("language_detected", "es"),
     ("original_transcript", "hola"), ("english_translation", "hello")]
    ⟨[], []⟩ none true true "temp/7.m4a" (by decide)

/-- Claim C2 counterexample: in a run whose wav-file unlink raises (a
permission error), the exception is neither swallowed nor logged — it
escapes the finally block (`outCleanupErr` is `some (some _)`) — and the
temp file is left on disk.  The 200 response stands only because it was
sent before cleanup ran. -/
theorem c2_counterexample :
    outCleanupErr (handleTranscribe (some "u") 7 ⟨[], ["temp/7.wav"]⟩
      ⟨[⟨"download", "[download] Destination: temp/7.m4a"⟩], .close, ["temp/7.m4a"]⟩
      ⟨.ok (), false⟩ (.ok "\x7b\"language_detected\":\"en\",\"original_transcript\":\"hi\",\"english_translation\":\"hi\"\x7d")) =
      some (some "EPERM: operation not permitted, unlink temp/7.wav") ∧
    outStatus (handleTranscribe (some "u") 7 ⟨[], ["temp/7.wav"]⟩
      ⟨[⟨"download", "[download] Destination: temp/7.m4a"⟩], .close, ["temp/7.m4a"]⟩
      ⟨.ok (), false⟩ (.ok "\x7b\"language_detected\":\"en\",\"original_transcript\":\"hi\",\"english_translation\":\"hi\"\x7d")) =
      some 200 ∧
    outFs (handleTranscribe (some "u") 7 ⟨[], ["temp/7.wav"]⟩
      ⟨[⟨"download", "[download] Destination: temp/7.m4a"⟩], .close, ["temp/7.m4a"]⟩
      ⟨.ok (), false⟩ (.ok "\x7b\"language_detected\":\"en\",\"original_transcript\":\"hi\",\"english_translation\":\"hi\"\x7d")) =
      some ⟨["temp/7.wav"], ["temp/7.wav"]⟩ := by
  decide

/-- Claim C2 (amended): the HTTP status and body never depend on unlink
failures (the response is sent before the finally block runs, so the
original outcome is always delivered unchanged), and a temp file that is
already gone causes no cleanup error because each unlink is guarded by an
`existsSync` check; but a failing unlink is not caught — its exception
escapes the handler (see the counterexample). -/
theorem c2_cleanup_failure_behaviour :
    (∀ (urlField : Option String) (uid : Nat) (files failsL : List String)
        (dl : DownloadSim) (tc : TranscodeSim) (mr : Except String String),
      outStatus (handleTranscribe urlField uid ⟨files, failsL⟩ dl tc mr) =
        outStatus (handleTranscribe urlField uid ⟨files, []⟩ dl tc mr) ∧
      outBody (handleTranscribe urlField uid ⟨files, failsL⟩ dl tc mr) =
        outBody (handleTranscribe urlField uid ⟨files, []⟩ dl tc mr)) ∧
    (∀ (df afp : String) (fs : FS),
      existsSync fs df = false → existsSync fs afp = false →
      cleanup df afp fs = ⟨fs, none⟩) := by
  constructor
  · intro urlField uid files failsL dl tc mr
    cases urlField with
    | none => exact ⟨rfl, rfl⟩
    | some url =>
      unfold handleTranscribe
      cases hf : foldDest dl.events with
      | none => exact ⟨rfl, rfl⟩
      | some df =>
        have h := runTryBody_indep url df (audioFilePath uid)
          (files ++ dl.createdFiles) failsL [] dl.outcome tc mr
        simp only [outStatus, outBody, fsAddMany]
        rw [h.1]
        exact ⟨rfl, rfl⟩
  · intro df afp fs hdf hafp
    unfold cleanup cleanupSecond
    rw [hdf, hafp]
    simp

/-- Witness for C2 (amended): cleanup of two already-absent files on a
filesystem that would fail both unlinks raises nothing and changes
nothing. -/
theorem c2_witness :
    cleanup "temp/9.m4a" "temp/9.wav" ⟨[], ["temp/9.m4a", "temp/9.wav"]⟩ =
      ⟨⟨[], ["temp/9.m4a", "temp/9.wav"]⟩, none⟩ :=
  c2_cleanup_failure_behaviour.2 "temp/9.m4a" "temp/9.wav"
    ⟨[], ["temp/9.m4a", "temp/9.wav"]⟩ (by decide) (by decide)

/-- Claim C3 counterexample: a process-level error event (here
`spawn yt-dlp ENOENT`) does not produce the 400 download message the claim
asserts; the handler returns 500 with the raw message in `details`. -/
theorem c3_counterexample :
    outStatus (handleTranscribe (some "https://insta/reel") 7 ⟨[], []⟩
      ⟨[], .procError "spawn yt-dlp ENOENT", []⟩ ⟨.ok (), false⟩
      (.ok "\x7b\x7d")) = some 500 ∧
    outBody (handleTranscribe (some "https://insta/reel") 7 ⟨[], []⟩
      ⟨[], .procError "spawn yt-dlp ENOENT", []⟩ ⟨.ok (), false⟩
      (.ok "\x7b\x7d")) =
      some [("error", internalErrorMsg), ("details", "spawn yt-dlp ENOENT")] := by
  decide

/-- Claim C3 (amended): a process-level error event rejects the download
promise with the subprocess's own error; whenever that message is not the
literal string `DownloadFailed`, the handler returns 500 with the message
in `details` (not the 400 download response), and neither the transcode
stage nor the inference stage runs. -/
theorem c3_process_error_maps_to_500 (u msg df : String) (uid : Nat)
    (fs0 : FS) (dl : DownloadSim) (tc : TranscodeSim)
    (mr : Except String String)
    (hf : foldDest dl.events = some df)
    (ho : dl.outcome = .procError msg)
    (hne : msg ≠ "DownloadFailed") :
    outStatus (handleTranscribe (some u) uid fs0 dl tc mr) = some 500 ∧
    outBody (handleTranscribe (some u) uid fs0 dl tc mr) =
      some [("error", internalErrorMsg), ("details", msg)] ∧
    outRanTranscode (handleTranscribe (some u) uid fs0 dl tc mr) = some false ∧
    outRanInference (handleTranscribe (some u) uid fs0 dl tc mr) = some false := by
  unfold handleTranscribe
  rw [hf]
  simp only [ho, runTryBody, respOf, mapCatch, if_neg hne,
    outStatus, outBody, outRanTranscode, outRanInference]
  exact ⟨trivial, trivial, trivial, trivial⟩

/-- Witness for C3 (amended), at a concrete crashed-subprocess run. -/
theorem c3_witness :
    outStatus (handleTranscribe (some "u") 3 ⟨[], []⟩
      ⟨[], .procError "yt-dlp exited with code 1", []⟩ ⟨.ok (), false⟩
      (.ok "\x7b\x7d")) = some 500 ∧
    outBody (handleTranscribe (some "u") 3 ⟨[], []⟩
      ⟨[], .procError "yt-dlp exited with code 1", []⟩ ⟨.ok (), false⟩
      (.ok "\x7b\x7d")) =
      some [("error", internalErrorMsg), ("details", "yt-dlp exited with code 1")] ∧
    outRanTranscode (handleTranscribe (some "u") 3 ⟨[], []⟩
      ⟨[], .procError "yt-dlp exited with code 1", []⟩ ⟨.ok (), false⟩
      (.ok "\x7b\x7d")) = some false ∧
    outRanInference (handleTranscribe (some "u") 3 ⟨[], []⟩
      ⟨[], .procError "yt-dlp exited with code 1", []⟩ ⟨.ok (), false⟩
      (.ok "\x7b\x7d")) = some false :=
  c3_process_error_maps_to_500 "u" "yt-dlp exited with code 1" "" 3 ⟨[], []⟩
    ⟨[], .procError "yt-dlp exited with code 1", []⟩ ⟨.ok (), false⟩
    (.ok "\x7b\x7d") rfl rfl (by decide)

/-- Claim C4 counterexample: a transport failure and a parse failure reach
the pipeline as the very same error (`geminiGenericErrorMsg`): the outer
catch of `transcribeAndTranslateWithGemini` replaces the distinct
parse-failure error, so the two kinds are not distinguishable to the
caller, contrary to the claim. -/
theorem c4_counterexample :
    (transcribeAndTranslateWithGemini (.error "network timeout")).result =
      .error geminiGenericErrorMsg ∧
    (transcribeAndTranslateWithGemini
      (.ok "Sorry, I cannot process this audio.")).result =
      .error geminiGenericErrorMsg := by
  decide

/-- Claim C4 (amended): a parse failure of the model reply first raises the
distinct invalid-format error and logs the unparseable text server-side,
but the function's outer catch collapses it into the same generic error a
transport failure produces; the handler therefore answers 500 with a body
built only from the two fixed strings, so the raw model text never reaches
the HTTP response. -/
theorem c4_parse_failure_collapsed_to_generic_error (text : String)
    (hp : jsonParseFlat (cleanGeminiResponse text) = none) :
    (transcribeAndTranslateWithGemini (.ok text)).result =
      .error geminiGenericErrorMsg ∧
    ("Failed to parse JSON response from Gemini: " ++ cleanGeminiResponse text)
      ∈ (transcribeAndTranslateWithGemini (.ok text)).logs ∧
    (∀ cause, (transcribeAndTranslateWithGemini (.error cause)).result =
      .error geminiGenericErrorMsg) ∧
    mapCatch geminiGenericErrorMsg =
      ⟨500, [("error", internalErrorMsg), ("details", geminiGenericErrorMsg)]⟩ := by
  refine ⟨?_, ?_, fun cause => rfl, ?_⟩
  · simp [transcribeAndTranslateWithGemini, hp]
  · simp [transcribeAndTranslateWithGemini, hp]
  · unfold mapCatch
    rw [if_neg (by decide)]

/-- Witness for C4 (amended), at a concrete non-JSON model reply. -/
theorem c4_witness :
    (transcribeAndTranslateWithGemini (.ok "This is not JSON.")).result =
      .error geminiGenericErrorMsg ∧
    ("Failed to parse JSON response from Gemini: " ++
      cleanGeminiResponse "This is not JSON.")
      ∈ (transcribeAndTranslateWithGemini (.ok "This is not JSON.")).logs ∧
    (∀ cause, (transcribeAndTranslateWithGemini (.error cause)).result =
      .error geminiGenericErrorMsg) ∧
    mapCatch geminiGenericErrorMsg =
      ⟨500, [("error", internalErrorMsg), ("details", geminiGenericErrorMsg)]⟩ :=
  c4_parse_failure_collapsed_to_generic_error "This is not JSON." (by decide)

/-- Claim C5 counterexample: the reply `\x7b\x7d` is valid JSON lacking all
three required keys, yet the client returns it as a success (`.ok []`), and
a full pipeline run with that reply answers 200 with a body missing all
three fields — it is not treated as a malformed response. -/
theorem c5_counterexample :
    (transcribeAndTranslateWithGemini (.ok "\x7b\x7d")).result = .ok [] ∧
    outStatus (handleTranscribe (some "u") 7 ⟨[], []⟩
      ⟨[⟨"download", "[download] Destination: temp/7.m4a"⟩], .close, ["temp/7.m4a"]⟩
      ⟨.ok (), false⟩ (.ok "\x7b\x7d")) = some 200 ∧
    outBody (handleTranscribe (some "u") 7 ⟨[], []⟩
      ⟨[⟨"download", "[download] Destination: temp/7.m4a"⟩], .close, ["temp/7.m4a"]⟩
      ⟨.ok (), false⟩ (.ok "\x7b\x7d")) = some [("sourceUrl", "u")] := by
  decide

/-- Claim C5 (amended): the client succeeds exactly when the (fence-
stripped) reply parses as JSON, returning the parsed object as is — the
presence of `language_detected`, `original_transcript` and
`english_translation` is never checked, so a valid-JSON reply lacking them
is still a success. -/
theorem c5_success_iff_parse_ok (r : String) (pairs : List (String × String)) :
    (transcribeAndTranslateWithGemini (.ok r)).result = .ok pairs ↔
      jsonParseFlat (cleanGeminiResponse r) = some pairs := by
  unfold transcribeAndTranslateWithGemini
  cases hp : jsonParseFlat (cleanGeminiResponse r) with
  | none => simp [hp]
  | some q => simp [hp, eq_comm]

/-- Claim C6: when the event stream contains a destination announcement `e`
followed only by non-destination events, the captured `downloadedFile` is
the path announced by `e` — the last destination event wins, whatever was
captured before — and the handler records exactly that path. -/
theorem c6_last_destination_wins (xs ys : List YtEvent) (e : YtEvent)
    (w v : String)
    (hxs : foldDest xs = some w)
    (he : announcedDest e = some v)
    (hys : ∀ y ∈ ys, isDestEvent y = false) :
    foldDest (xs ++ e :: ys) = some v ∧
    ∀ (u : String) (uid : Nat) (fs0 : FS) (outc : DlOutcome)
      (cf : List String) (tc : TranscodeSim) (mr : Except String String),
      outDownloadedFile
        (handleTranscribe (some u) uid fs0 ⟨xs ++ e :: ys, outc, cf⟩ tc mr) =
        some v := by
  have hfold : foldDest (xs ++ e :: ys) = some v := by
    unfold foldDest at hxs ⊢
    rw [foldDestFrom_append, hxs]
    simp only [foldDestFrom, destStep_of_announced w v e he]
    exact foldDestFrom_nonDest v ys hys
  refine ⟨hfold, ?_⟩
  intro u uid fs0 outc cf tc mr
  unfold handleTranscribe
  rw [hfold]
  rfl

/-- Witness for C6: two destination announcements followed by a progress
event — the second announcement (`temp/9.m4a`) wins over the first
(`temp/9.webm`). -/
theorem c6_witness :
    foldDest
      ([⟨"download", "[download] Destination: temp/9.webm"⟩] ++
        ⟨"download", "[download] Destination: temp/9.m4a"⟩ ::
          [⟨"download", "[download]  42.0% of 1.00MiB"⟩]) =
      some "temp/9.m4a" :=
  (c6_last_destination_wins
    [⟨"download", "[download] Destination: temp/9.webm"⟩]
    [⟨"download", "[download]  42.0% of 1.00MiB"⟩]
    ⟨"download", "[download] Destination: temp/9.m4a"⟩
    "temp/9.webm" "temp/9.m4a" (by decide) (by decide) (by decide)).1

/-- Claim C7: when the subprocess closes without a usable destination —
nothing captured (`df = ""`) or the captured path absent from disk — the
handler answers 400 with the download-failure message, and neither the
transcode stage nor the inference stage runs. -/
theorem c7_download_failure_short_circuits (u df : String) (uid : Nat)
    (fs0 : FS) (dl : DownloadSim) (tc : TranscodeSim)
    (mr : Except String String)
    (hf : foldDest dl.events = some df)
    (ho : dl.outcome = .close)
    (hbad : df = "" ∨ existsSync (fsAddMany fs0 dl.createdFiles) df = false) :
    outStatus (handleTranscribe (some u) uid fs0 dl tc mr) = some 400 ∧
    outBody (handleTranscribe (some u) uid fs0 dl tc mr) =
      some [("error", downloadFailedUserMsg)] ∧
    outRanTranscode (handleTranscribe (some u) uid fs0 dl tc mr) = some false ∧
    outRanInference (handleTranscribe (some u) uid fs0 dl tc mr) = some false := by
  unfold handleTranscribe
  rw [hf]
  by_cases hdf : df = ""
  · simp [ho, runTryBody, if_pos hdf, respOf, mapCatch,
      outStatus, outBody, outRanTranscode, outRanInference]
  · have hex : existsSync (fsAddMany fs0 dl.createdFiles) df = false := by
      rcases hbad with h | h
      · exact absurd h hdf
      · exact h
    simp [ho, runTryBody, if_neg hdf, hex, respOf, mapCatch,
      outStatus, outBody, outRanTranscode, outRanInference]

/-- Witness for C7: a run whose download tool emits no events at all. -/
theorem c7_witness :
    outStatus (handleTranscribe (some "u") 5 ⟨[], []⟩
      ⟨[], .close, []⟩ ⟨.ok (), false⟩ (.ok "\x7b\x7d")) = some 400 ∧
    outBody (handleTranscribe (some "u") 5 ⟨[], []⟩
      ⟨[], .close, []⟩ ⟨.ok (), false⟩ (.ok "\x7b\x7d")) =
      some [("error", downloadFailedUserMsg)] ∧
    outRanTranscode (handleTranscribe (some "u") 5 ⟨[], []⟩
      ⟨[], .close, []⟩ ⟨.ok (), false⟩ (.ok "\x7b\x7d")) = some false ∧
    outRanInference (handleTranscribe (some "u") 5 ⟨[], []⟩
      ⟨[], .close, []⟩ ⟨.ok (), false⟩ (.ok "\x7b\x7d")) = some false :=
  c7_download_failure_short_circuits "u" "" 5 ⟨[], []⟩
    ⟨[], .close, []⟩ ⟨.ok (), false⟩ (.ok "\x7b\x7d") rfl rfl (Or.inl rfl)

/-- Claim C8: the json-tagged fenced reply wrapping the minified
three-field object parses to exactly the embedded values, and the
stripping step touches only replies beginning with the literal marker. -/
theorem c8_fence_stripping_exact :
    (transcribeAndTranslateWithGemini (.ok
      "```json\n\x7b\"language_detected\":\"es\",\"original_transcript\":\"hola\",\"english_translation\":\"hello\"\x7d\n```")).result
      = .ok [("language_detected", "es"), ("original_transcript", "hola"),
             ("english_translation", "hello")] ∧
    ∀ t : String, jsStartsWith t "```json" = false → cleanGeminiResponse t = t := by
  constructor
  · decide
  · intro t ht
    unfold cleanGeminiResponse
    rw [ht]
    simp

/-- Witness for C8 (for the second, conditional conjunct): an unfenced
reply passes through the stripping step unchanged. -/
theorem c8_witness : cleanGeminiResponse "Plain reply." = "Plain reply." :=
  c8_fence_stripping_exact.2 "Plain reply." (by decide)

/-- Claim C9 counterexample: the jobId is nothing but the handler's
`Date.now()` reading, so two concurrent requests served within the same
millisecond (both observing `1700000000123`) receive the same jobId and
the very same waveform path — their temporary files collide, contrary to
the claimed distinctness. -/
theorem c9_counterexample :
    jobIdOfRequest 1700000000123 = jobIdOfRequest 1700000000123 ∧
    audioFilePath (jobIdOfRequest 1700000000123) =
      audioFilePath (jobIdOfRequest 1700000000123) ∧
    audioFilePath (jobIdOfRequest 1700000000123) = "temp/1700000000123.wav" := by
  refine ⟨rfl, rfl, ?_⟩
  decide

/-- Claim C9 (amended): requests observing distinct `Date.now()` values get
distinct jobIds, and their waveform paths differ as well (the decimal
representation embedded in the path is injective); only same-millisecond
requests collide. -/
theorem c9_distinct_timestamps_no_collision (t1 t2 : Nat) (h : t1 ≠ t2) :
    jobIdOfRequest t1 ≠ jobIdOfRequest t2 ∧
    audioFilePath (jobIdOfRequest t1) ≠ audioFilePath (jobIdOfRequest t2) := by
  refine ⟨h, ?_⟩
  intro hp
  exact h (audioFilePath_injective t1 t2 hp)

/-- Witness for C9 (amended), at two adjacent millisecond timestamps. -/
theorem c9_witness :
    jobIdOfRequest 1700000000123 ≠ jobIdOfRequest 1700000000124 ∧
    audioFilePath (jobIdOfRequest 1700000000123) ≠
      audioFilePath (jobIdOfRequest 1700000000124) :=
  c9_distinct_timestamps_no_collision 1700000000123 1700000000124 (by decide)

/-- Claim C10 counterexample: a success whose parsed reply is
`\x7b"extra":"x"\x7d` answers 200 with body `sourceUrl` plus `extra` — not
the three claimed fields: the body holds whatever the model's parsed reply
held. -/
theorem c10_counterexample :
    outStatus (handleTranscribe (some "u") 7 ⟨[], []⟩
      ⟨[⟨"download", "[download] Destination: temp/7.m4a"⟩], .close, ["temp/7.m4a"]⟩
      ⟨.ok (), false⟩ (.ok "\x7b\"extra\":\"x\"\x7d")) = some 200 ∧
    outBody (handleTranscribe (some "u") 7 ⟨[], []⟩
      ⟨[⟨"download", "[download] Destination: temp/7.m4a"⟩], .close, ["temp/7.m4a"]⟩
      ⟨.ok (), false⟩ (.ok "\x7b\"extra\":\"x\"\x7d")) =
      some [("sourceUrl", "u"), ("extra", "x")] := by
  decide

/-- Claim C10 (amended): on pipeline success the response has status 200
and its body is the echoed `sourceUrl` followed by the parsed result's
key/value pairs passed through unchanged; it consists of exactly the three
claimed fields only when the model's parsed reply has exactly those keys. -/
theorem c10_success_response_passthrough (u df r : String) (uid : Nat)
    (fs0 : FS) (dl : DownloadSim) (tc : TranscodeSim)
    (pairs : List (String × String))
    (hf : foldDest dl.events = some df)
    (ho : dl.outcome = .close)
    (hdf : df ≠ "")
    (hex : existsSync (fsAddMany fs0 dl.createdFiles) df = true)
    (htc : tc.result = .ok ())
    (hp : jsonParseFlat (cleanGeminiResponse r) = some pairs) :
    outStatus (handleTranscribe (some u) uid fs0 dl tc (.ok r)) = some 200 ∧
    outBody (handleTranscribe (some u) uid fs0 dl tc (.ok r)) =
      some (("sourceUrl", u) :: pairs) := by
  unfold handleTranscribe
  rw [hf]
  simp only [ho, runTryBody, if_neg hdf, hex, Bool.not_true, Bool.false_eq_true,
    if_false, htc, transcribeAndTranslateWithGemini, hp, respOf,
    outStatus, outBody]
  exact ⟨trivial, trivial⟩

/-- Witness for C10 (amended): a full success run with the three-field
reply answers 200 with `sourceUrl` followed by the three fields. -/
theorem c10_witness :
    outStatus (handleTranscribe (some "https://insta/reel") 8 ⟨[], []⟩
      ⟨[⟨"download", "[download] Destination: temp/8.m4a"⟩], .close, ["temp/8.m4a"]⟩
      ⟨.ok (), false⟩
      (.ok "\x7b\"language_detected\":\"es\",\"original_transcript\":\"hola\",\"english_translation\":\"hello\"\x7d")) =
      some 200 ∧
    outBody (handleTranscribe (some "https://insta/reel") 8 ⟨[], []⟩
      ⟨[⟨"download", "[download] Destination: temp/8.m4a"⟩], .close, ["temp/8.m4a"]⟩
      ⟨.ok (), false⟩
      (.ok "\x7b\"language_detected\":\"es\",\"original_transcript\":\"hola\",\"english_translation\":\"hello\"\x7d")) =
      some (("sourceUrl", "https://insta/reel") ::
        [("language_detected", "es"), ("original_transcript", "hola"),
         ("english_translation", "hello")]) :=
  c10_success_response_passthrough "https://insta/reel" "temp/8.m4a"
    "\x7b\"language_detected\":\"es\",\"original_transcript\":\"hola\",\"english_translation\":\"hello\"\x7d"
    8 ⟨[], []⟩
    ⟨[⟨"download", "[download] Destination: temp/8.m4a"⟩], .close, ["temp/8.m4a"]⟩
    ⟨.ok (), false⟩
    [("language_detected", "es"), ("original_transcript", "hola"),
     ("english_translation", "hello")]
    (by decide) rfl (by decide) (by decide) rfl (by decide)
